import Mathlib

/-!
Verification of the analysis pipeline in src/autolysis.py against its
specification. The Python program is shallowly embedded: pandas DataFrames
become lists of named columns over Option ℚ (none models a missing value /
NaN), float arithmetic is modelled by exact rational (and, where a square
root is genuinely needed, real) arithmetic, and Python exceptions become
Except values that the orchestrator propagates exactly where the source has
no try/except. File writes are modelled by an oracle fs : String → Bool
telling which paths can be written (fig.savefig and open(...,"w") raise on
a failing path). The outbound narrative HTTP call is modelled by its
outcome, an Except value, since the program only ever inspects the
response object.
-/

namespace Autolysis

/-- One pandas column: its name, whether its dtype is numeric
(select_dtypes(include=np.number) keeps it), and its cells; none models a
missing entry (NaN). Every analysis in the source restricts to numeric
columns before reading cell payloads, so cells are uniformly Option ℚ. -/
structure Column where
  name : String
  isNum : Bool
  cells : List (Option ℚ)
deriving DecidableEq

/-- A pandas DataFrame: an ordered list of columns. pandas guarantees that
all columns share one row count; theorems that depend on that invariant
take it as an explicit hypothesis. -/
abbrev Table := List Column

/-- data.select_dtypes(include=np.number): keep the numeric-dtype columns
(lines 100, 117, 129, 144, 160 of the source). -/
def select_dtypes_number (d : Table) : Table :=
  d.filter (fun c => c.isNum)

/-- Row count of a frame (all columns share it; the first column is the
representative). -/
def nrowsDf (d : Table) : Nat :=
  (d.head?.map (fun c => c.cells.length)).getD 0

/-- Column count of a frame. -/
def ncolsDf (d : Table) : Nat := d.length

/-- DataFrame.empty: true exactly when one of the axes has length 0. -/
def dfEmpty (d : Table) : Bool :=
  d.isEmpty || nrowsDf d == 0

/-- Row i survives dropna() exactly when every column is present there. -/
def keepRow (d : Table) (i : Nat) : Bool :=
  d.all (fun c => (c.cells.getD i none).isSome)

/-- DataFrame.dropna(): drop every row in which some column is missing,
returning a new frame (pandas dropna copies; it never mutates its
receiver). -/
def dropna (d : Table) : Table :=
  let keep := (List.range (nrowsDf d)).filter (keepRow d)
  d.map (fun c => { c with cells := keep.map (fun i => c.cells.getD i none) })

/-- data.select_dtypes(include=np.number).dropna(), the subexpression that
lines 129, 144 and 160 of the source each recompute. -/
def numericDropna (d : Table) : Table :=
  dropna (select_dtypes_number d)

/-- The present (non-NaN) values of a column, in row order. -/
def colVals (c : Column) : List ℚ :=
  c.cells.filterMap id

/-- Row-major numeric matrix of a frame whose cells are all present (the
result of dropna); an absent cell would read as 0 but never occurs there. -/
def rowsQ (d : Table) : List (List ℚ) :=
  (List.range (nrowsDf d)).map (fun i => d.map (fun c => (c.cells.getD i none).getD 0))

/-- numpy sort of the values of a Series, ascending. -/
def sortQ (vs : List ℚ) : List ℚ :=
  vs.mergeSort (fun a b => decide (a ≤ b))

/-- The fractional index p * (n - 1) at which the linear-interpolation
quantile of a sorted list of length n is read. -/
def qpos (p : ℚ) (s : List ℚ) : ℚ :=
  p * ((s.length : ℚ) - 1)

/-- Linear interpolation between the floor- and ceiling-index entries of a
sorted list, numpy style: s[lo] + frac * (s[hi] - s[lo]). -/
def interpAt (p : ℚ) (s : List ℚ) : ℚ :=
  s.getD (Int.toNat ⌊qpos p s⌋) 0
    + (qpos p s - (⌊qpos p s⌋ : ℚ)) * (s.getD (Int.toNat ⌈qpos p s⌉) 0 - s.getD (Int.toNat ⌊qpos p s⌋) 0)

/-- Series.quantile(p) with the default linear interpolation: missing
values are skipped, and an all-missing (empty) Series has quantile NaN,
modelled as none. -/
def quantileQ (p : ℚ) (vs : List ℚ) : Option ℚ :=
  if (sortQ vs).isEmpty then none
  else some (interpAt p (sortQ vs))

/-- Number of values of one column outside [Q1 - 1.5 IQR, Q3 + 1.5 IQR]
(line 104): pandas evaluates (x < lo) | (hi < x) cellwise, a comparison
against NaN (a missing cell, or a NaN quantile of an all-missing column)
is False, and .sum() counts the True entries. -/
def outlierCount (cells : List (Option ℚ)) : Nat :=
  let vs := cells.filterMap id
  match quantileQ (1/4) vs, quantileQ (3/4) vs with
  | some q1, some q3 =>
      vs.countP (fun x => decide (x < q1 - 3/2 * (q3 - q1)) || decide (q3 + 3/2 * (q3 - q1) < x))
  | _, _ => 0

/-- outlier_detection (lines 99-105): per numeric column, the count of
values outside the IQR fence. -/
def outlier_detection (d : Table) : List (String × Nat) :=
  (select_dtypes_number d).map (fun c => (c.name, outlierCount c.cells))

/-- basic_analysis (lines 92-96), restricted to the part later code can
observe structurally: the per-column missing-value counts. The describe()
summary and dtype dict flow only into the narrative prompt string, which
the narrative model abstracts over. -/
def basic_analysis (d : Table) : List (String × Nat) :=
  d.map (fun c => (c.name, c.cells.countP (fun x => x.isNone)))

/-- Mean of a list of rationals (sum / len, exact where the source uses
float). -/
def meanQ (vs : List ℚ) : ℚ :=
  vs.sum / (vs.length : ℚ)

/-- Population variance (ddof = 0), the square of the StandardScaler
scale. -/
def popVar (vs : List ℚ) : ℚ :=
  ((vs.map (fun x => (x - meanQ vs) ^ 2)).sum) / (vs.length : ℚ)

/-- Squared Euclidean distance between two rows of the StandardScaler
output, computed exactly in ℚ: the f-th coordinate of a scaled row is
(x_f - mean_f) / scale_f with scale_f = sqrt(var_f) (scale 1 when var_f
is 0, the _handle_zeros_in_scale rule), so the squared difference per
feature is (x_f - y_f)^2 / var_f, rational even though the scaled
coordinates themselves are not. -/
def scaledSqDist (vars p q : List ℚ) : ℚ :=
  ((vars.zip (p.zip q)).map
    (fun t => (t.2.1 - t.2.2) ^ 2 / (if t.1 = 0 then 1 else t.1))).sum

/-- Indices within DBSCAN radius eps = 0.5 of point i (inclusive, and
including i itself): squared standardized distance at most 0.25. -/
def dbscanNeighbors (vars : List ℚ) (pts : List (List ℚ)) (i : Nat) : List Nat :=
  (List.range pts.length).filter
    (fun j => decide (scaledSqDist vars (pts.getD i []) (pts.getD j []) ≤ (1/4 : ℚ)))

/-- Core point test with min_samples = 5 (the neighborhood counts the
point itself, as in sklearn). -/
def dbscanIsCore (vars : List ℚ) (pts : List (List ℚ)) (i : Nat) : Bool :=
  decide (5 ≤ (dbscanNeighbors vars pts i).length)

/-- The inner loop of sklearn dbscan_inner: depth-first expansion of one
cluster from a seed. Labels start at -1 (noise / unvisited); a visited
point is labelled, and if it is a core point its still-unlabelled
neighbors are pushed (in neighborhood order) onto a LIFO stack, whose head
is popped next. The fuel argument only bounds the recursion for the
termination checker: one run labels at most n points and each labelling
pushes at most n indices, so (n+1)*(n+1) steps are never exhausted. -/
def dbscanExpand (isCore : Nat → Bool) (nbrs : Nat → List Nat) :
    Nat → List Int → Int → Nat → List Nat → List Int
  | 0, labels, _, _, _ => labels
  | Nat.succ fuel, labels, lbl, i, stack =>
      let st :=
        if labels.getD i 0 == -1 then
          let labels1 := labels.set i lbl
          if isCore i then
            (labels1, ((nbrs i).filter (fun v => labels1.getD v 0 == -1)).reverse ++ stack)
          else (labels1, stack)
        else (labels, stack)
      match st.2 with
      | [] => st.1
      | j :: rest => dbscanExpand isCore nbrs fuel st.1 lbl j rest

/-- The outer loop of sklearn dbscan_inner: scan points in index order,
start a new cluster at each still-unlabelled core point. -/
def dbscanLoop (isCore : Nat → Bool) (nbrs : Nat → List Nat) (n : Nat) : List Int :=
  let step := fun (acc : List Int × Int) (i : Nat) =>
    if acc.1.getD i 0 == -1 && isCore i then
      (dbscanExpand isCore nbrs ((n + 1) * (n + 1)) acc.1 acc.2 i [], acc.2 + 1)
    else acc
  ((List.range n).foldl step (List.replicate n (-1), 0)).1

/-- DBSCAN(eps=0.5, min_samples=5).fit_predict on the StandardScaler
output of the numeric null-free frame (lines 148-151): one integer label
per retained row, -1 for noise. -/
def dbscan_fit_predict (nd : Table) : List Int :=
  let pts := rowsQ nd
  let vars := nd.map (fun c => popVar (colVals c))
  dbscanLoop (dbscanIsCore vars pts) (dbscanNeighbors vars pts) pts.length

/-- The exceptions the pipeline can propagate: a numeric library error
(ValueError), a failed figure or file write, and sys.exit. -/
inductive PyErr where
  | valueError (msg : String)
  | renderError (path : String)
  | systemExit (code : Nat)
deriving DecidableEq

/-- save_plot (lines 108-113): fig.savefig(plot_path) writes
plot_name + ".png" in the working directory and raises if the write
fails; there is no try/except here, so the failure propagates. -/
def save_plot (fs : String → Bool) (plot_name : String) : Except PyErr String :=
  let plot_path := plot_name ++ ".png"
  if fs plot_path then Except.ok plot_path else Except.error (PyErr.renderError plot_path)

/-- generate_correlation_matrix (lines 116-125): the only guard is
numeric_data.empty (no dropna here); on a nonempty numeric frame the
pairwise-complete corr() heatmap is rendered and saved. corr() itself
never raises, so the artifact path (or the None sentinel) is the
observable result. -/
def generate_correlation_matrix (fs : String → Bool) (data : Table) : Except PyErr (Option String) :=
  let numeric_data := select_dtypes_number data
  if dfEmpty numeric_data then Except.ok none
  else (save_plot fs "correlation_matrix").map some

/-- generate_pca_plot (lines 128-140): the guard checks only
numeric_data.shape[1] < 2 after dropna. When the guard passes but fewer
than 2 rows remain, the source raises: StandardScaler.fit_transform
rejects a 0-sample array, and PCA(n_components=2) rejects
min(n_samples, n_features) < 2. Neither error is caught anywhere. -/
def generate_pca_plot (fs : String → Bool) (data : Table) : Except PyErr (Option String) :=
  let numeric_data := numericDropna data
  if ncolsDf numeric_data < 2 then Except.ok none
  else if nrowsDf numeric_data = 0 then
    Except.error (PyErr.valueError "StandardScaler: found array with 0 samples")
  else if nrowsDf numeric_data < 2 then
    Except.error (PyErr.valueError "PCA: n_components=2 exceeds min of n_samples and n_features")
  else (save_plot fs "pca_plot").map some

instance {ε α : Type} [DecidableEq ε] [DecidableEq α] : DecidableEq (Except ε α)
  | Except.error a, Except.error b =>
      if h : a = b then isTrue (congrArg Except.error h)
      else isFalse (fun hh => h (Except.error.inj hh))
  | Except.error _, Except.ok _ => isFalse (fun hh => Except.noConfusion hh)
  | Except.ok _, Except.error _ => isFalse (fun hh => Except.noConfusion hh)
  | Except.ok a, Except.ok b =>
      if h : a = b then isTrue (congrArg Except.ok h)
      else isFalse (fun hh => h (Except.ok.inj hh))

/-- The observable outcome of dbscan_clustering (lines 143-156): the
artifact result, the table object the orchestrator keeps using afterwards,
and the derived frame that received the cluster column.
select_dtypes(...).dropna() builds a new frame, and assigning a new column
to a derived frame never writes through to its parent, so line 152 mutates
only the derived copy and dataAfter is the untouched input table. -/
structure DbscanOut where
  result : Except PyErr (Option String)
  dataAfter : Table
  derived : Table
deriving DecidableEq

/-- dbscan_clustering (lines 143-156): on an empty numeric null-free frame
return None; otherwise standardize, fit_predict (deterministic, parameters
eps=0.5 and min_samples=5 fixed), attach the labels to the derived copy as
column "cluster", scatterplot and save. With at least one numeric column
the frame has at least two columns once "cluster" is attached, so the
iloc[:, 1] read in the plot never fails; the only fallible step is the
savefig write. -/
def dbscan_clustering (fs : String → Bool) (data : Table) : DbscanOut :=
  let numeric_data := numericDropna data
  if dfEmpty numeric_data then
    { result := Except.ok none, dataAfter := data, derived := numeric_data }
  else
    let clusters := dbscan_fit_predict numeric_data
    let withLabels := numeric_data ++ [⟨"cluster", true, clusters.map (fun z => some ((z : ℚ)))⟩]
    { result := (save_plot fs "dbscan_clusters").map some, dataAfter := data, derived := withLabels }

/-- hierarchical_clustering (lines 159-168): on an empty numeric null-free
frame return None; otherwise linkage(numeric_data, ward) runs on the RAW
numeric values (no StandardScaler on this path) and raises a ValueError
when fewer than 2 observations remain (the pairwise distance matrix is
empty); with at least 2 rows the merge tree always exists, the dendrogram
is drawn and the figure saved. The merge structure itself is not consumed
by any later stage, so only the applicability and failure behaviour is
modelled. -/
def hierarchical_clustering (fs : String → Bool) (data : Table) : Except PyErr (Option String) :=
  let numeric_data := numericDropna data
  if dfEmpty numeric_data then Except.ok none
  else if nrowsDf numeric_data < 2 then
    Except.error (PyErr.valueError "linkage: need at least 2 observations")
  else (save_plot fs "hierarchical_clustering").map some

/-- requests.exceptions.RequestException outcomes of the narrative call:
a transport failure of requests.post, or the HTTPError that
raise_for_status raises on a 4xx/5xx status. -/
inductive ReqError where
  | transport (msg : String)
  | httpStatus (code : Nat)
deriving DecidableEq

/-- The shape of response.json() along the path
choices[0].message.content on a successful response. -/
inductive NarrativeJson where
  | contentStr (s : String)
  | contentNull
  | contentMissing
deriving DecidableEq

/-- The chain .get(choices, [{}])[0].get(message, {}).get(content,
"No narrative generated.") of line 76: an absent key yields the default
string, a present null yields Python None. -/
def extract_content : NarrativeJson → Option String
  | NarrativeJson.contentStr s => some s
  | NarrativeJson.contentNull => none
  | NarrativeJson.contentMissing => some "No narrative generated."

/-- get_ai_story (lines 40-76): the prompt is built from the analysis
results but the returned text depends only on the HTTP outcome; a
RequestException (transport or raise_for_status) is caught and replaced by
the fixed placeholder string, otherwise the json field is extracted. -/
def get_ai_story (resp : Except ReqError NarrativeJson) : Option String :=
  match resp with
  | Except.error _ => some "Error: Unable to generate narrative. Please check the AI service."
  | Except.ok j => extract_content j

/-- Python truthiness of the narrative value at line 203: None and the
empty string are falsy. -/
def truthyString : Option String → Bool
  | none => false
  | some s => !(s == "")

/-- save_readme (lines 171-179): write README.md, and on a write failure
catch the exception and sys.exit(1). -/
def save_readme (fs : String → Bool) (content : String) : Except PyErr String :=
  if fs "README.md" then Except.ok content else Except.error (PyErr.systemExit 1)

/-- The image_paths dict literal of lines 188-193, evaluated left to
right; an exception in any entry aborts the whole construction, so later
entries are never rendered. The table handed to entries after the DBSCAN
one is the object DBSCAN left behind (dataAfter). -/
def render_all (fs : String → Bool) (data : Table) :
    Except PyErr (List (String × Option String) × Table) := do
  let cm ← generate_correlation_matrix fs data
  let pca ← generate_pca_plot fs data
  let dbOut := dbscan_clustering fs data
  let db ← dbOut.result
  let hc ← hierarchical_clustering fs dbOut.dataAfter
  return ([("correlation_matrix", cm), ("pca_plot", pca),
           ("dbscan_clusters", db), ("hierarchical_clustering", hc)], dbOut.dataAfter)

/-- What a completed run returns and leaves on disk: the narrative, the
README content written, and the image_paths entries. -/
structure RunOutput where
  narrative : String
  readme : String
  image_paths : List (String × Option String)
deriving DecidableEq

/-- analyze_and_generate_output (lines 182-206), from the point where the
table has been ingested: basic analysis and outlier detection (total
functions), the four visualizations (any uncaught exception aborts the
run), the narrative call with its falsy-value fallback, and the README
write. -/
def analyze_and_generate_output (fs : String → Bool) (resp : Except ReqError NarrativeJson)
    (data : Table) : Except PyErr RunOutput := do
  let _missing := basic_analysis data
  let _outliers := outlier_detection data
  let (image_paths, _dataAfter) ← render_all fs data
  let story := get_ai_story resp
  let narrative :=
    if truthyString story then story.getD ""
    else "Error: Narrative generation failed. Please verify the AI service."
  let content := "Dataset Analysis: " ++ narrative
  let written ← save_readme fs content
  return { narrative := narrative, readme := written, image_paths := image_paths }

/-- Process exit status of main for a given ingested table: 0 on normal
return, the sys.exit code when one is raised, and 1 when an uncaught
exception kills the interpreter. -/
def mainExitCode (fs : String → Bool) (resp : Except ReqError NarrativeJson) (data : Table) : Nat :=
  match analyze_and_generate_output fs resp data with
  | Except.ok _ => 0
  | Except.error (PyErr.systemExit c) => c
  | Except.error _ => 1

/-- StandardScaler pieces over ℝ, used to state what input each clustering
algorithm consumes (the scale is a genuine square root, hence ℝ). -/
noncomputable def meanR (vs : List ℝ) : ℝ :=
  vs.sum / (vs.length : ℝ)

/-- Population variance over ℝ (ddof = 0). -/
noncomputable def popVarR (vs : List ℝ) : ℝ :=
  ((vs.map (fun x => (x - meanR vs) ^ 2)).sum) / (vs.length : ℝ)

/-- StandardScaler scale of one feature: sqrt of the population variance,
with a zero variance mapped to scale 1 (_handle_zeros_in_scale). -/
noncomputable def scaleR (vs : List ℝ) : ℝ :=
  if popVarR vs = 0 then 1 else Real.sqrt (popVarR vs)

/-- StandardScaler transform of one feature column. -/
noncomputable def stdColumn (vs : List ℝ) : List ℝ :=
  vs.map (fun x => (x - meanR vs) / scaleR vs)

/-- The present values of a column, as reals. -/
noncomputable def colValsR (c : Column) : List ℝ :=
  (colVals c).map (fun q => (q : ℝ))

/-- StandardScaler.fit_transform of a frame, column-major. -/
noncomputable def standardScalerCols (nd : Table) : List (List ℝ) :=
  nd.map (fun c => stdColumn (colValsR c))

/-- The matrix DBSCAN is fitted on (line 149): the standardized numeric
null-free subset, column-major. -/
noncomputable def dbscan_input (d : Table) : List (List ℝ) :=
  standardScalerCols (numericDropna d)

/-- The matrix ward linkage is fitted on (line 164): the numeric null-free
subset with NO standardization, column-major. -/
noncomputable def hierarchical_input (d : Table) : List (List ℝ) :=
  (numericDropna d).map colValsR

/-- A single numeric column holding one present value. -/
def colA : Column := ⟨"a", true, [some 0]⟩

/-- Table with exactly one numeric column and one row. -/
def tOne : Table := [colA]

/-- Table with two numeric columns but only one retained row. -/
def tTwoColsOneRow : Table := [⟨"a", true, [some 0]⟩, ⟨"b", true, [some 1]⟩]

/-- Table with two numeric columns and two complete rows. -/
def tTwoCols : Table := [⟨"a", true, [some 0, some 4]⟩, ⟨"b", true, [some 1, some 3]⟩]

/-- Table with one numeric column whose two values differ (variance 4, so
standardization moves them). -/
def tPair : Table := [⟨"a", true, [some 0, some 4]⟩]

/-- Table with one numeric column and two identical rows: every
visualization stage succeeds on it. -/
def tW : Table := [⟨"a", true, [some 0, some 0]⟩]

/-- File-system oracle on which every write succeeds. -/
def fsAll : String → Bool := fun _ => true

/-- File-system oracle on which only the correlation-matrix write fails. -/
def fsNoCorr : String → Bool := fun p => !(p == "correlation_matrix.png")

/-- A successful narrative response carrying generated text. -/
def respOk : Except ReqError NarrativeJson := Except.ok (NarrativeJson.contentStr "story")

lemma dbscan_dataAfter (fs : String → Bool) (d : Table) :
    (dbscan_clustering fs d).dataAfter = d := by
  unfold dbscan_clustering
  by_cases h : dfEmpty (numericDropna d) = true <;> simp [h]

/-- C1 (amended): generate_correlation_matrix returns the None sentinel
exactly when the numeric subframe is empty, that is, when there are no
numeric columns or no rows at all; in every other case, including a table
with exactly one nonempty numeric column, it renders the heatmap and
attempts to save the correlation_matrix artifact. -/
theorem corr_none_iff_numeric_empty (fs : String → Bool) (d : Table) :
    generate_correlation_matrix fs d = Except.ok none ↔
      dfEmpty (select_dtypes_number d) = true := by
  unfold generate_correlation_matrix save_plot
  by_cases h : dfEmpty (select_dtypes_number d) = true
  · simp [h]
  · by_cases hfs : fs "correlation_matrix.png" = true <;> simp [h, hfs, Except.map]

/-- C1 (counterexample): a table with exactly one numeric column (fewer
than 2) and one row has a nonempty numeric subframe, so the source renders
and saves the correlation-matrix artifact instead of returning the
not-applicable sentinel. -/
theorem corr_single_numeric_column_cex :
    ncolsDf (select_dtypes_number tOne) = 1 ∧
    generate_correlation_matrix fsAll tOne = Except.ok (some "correlation_matrix.png") :=
  ⟨rfl, rfl⟩

/-- C3 (amended): when at least 2 numeric columns survive selection but
fewer than 2 rows survive dropna, generate_pca_plot does not return the
not-applicable sentinel: the column-count guard passes and the scaler/PCA
fit raises a ValueError that nothing catches. -/
theorem pca_degenerate_rows_raises (fs : String → Bool) (d : Table)
    (hc : 2 ≤ ncolsDf (numericDropna d)) (hr : nrowsDf (numericDropna d) < 2) :
    ∃ msg, generate_pca_plot fs d = Except.error (PyErr.valueError msg) := by
  simp only [generate_pca_plot]
  rw [if_neg (by omega : ¬ ncolsDf (numericDropna d) < 2)]
  by_cases h0 : nrowsDf (numericDropna d) = 0
  · exact ⟨_, by rw [if_pos h0]⟩
  · exact ⟨_, by rw [if_neg h0, if_pos hr]⟩

/-- C3 (amended, witness): two numeric columns, one retained row. -/
theorem pca_degenerate_rows_raises_witness :
    ∃ msg, generate_pca_plot fsAll tTwoColsOneRow = Except.error (PyErr.valueError msg) :=
  pca_degenerate_rows_raises fsAll tTwoColsOneRow (by decide) (by decide)

/-- C3 (counterexample): on a table with two numeric columns and a single
retained row, the dimensionality-reduction stage raises a ValueError
instead of returning the not-applicable sentinel the claim promises. -/
theorem pca_degenerate_rows_cex :
    2 ≤ ncolsDf (numericDropna tTwoColsOneRow) ∧
    nrowsDf (numericDropna tTwoColsOneRow) < 2 ∧
    generate_pca_plot fsAll tTwoColsOneRow =
      Except.error (PyErr.valueError "PCA: n_components=2 exceeds min of n_samples and n_features") :=
  ⟨by decide, by decide, by decide⟩

/-- C4 (amended): a numeric failure inside a clustering stage is not
caught at any stage boundary: when the earlier artifact stages succeed and
ward linkage raises, the error propagates out of
analyze_and_generate_output, so the narrative step and the report write
never run. -/
theorem clustering_failure_aborts (fs : String → Bool) (resp : Except ReqError NarrativeJson)
    (d : Table) (e : PyErr) (a b c : Option String)
    (hcm : generate_correlation_matrix fs d = Except.ok a)
    (hpca : generate_pca_plot fs d = Except.ok b)
    (hdb : (dbscan_clustering fs d).result = Except.ok c)
    (hhc : hierarchical_clustering fs d = Except.error e) :
    analyze_and_generate_output fs resp d = Except.error e := by
  simp only [analyze_and_generate_output, render_all]
  rw [dbscan_dataAfter, hcm, hpca, hdb, hhc]
  rfl

/-- C4 (amended, witness): the one-row numeric table drives hierarchical
clustering into its numeric failure while the earlier stages succeed, and
the run aborts with that error. -/
theorem clustering_failure_aborts_witness :
    analyze_and_generate_output fsAll respOk tOne =
      Except.error (PyErr.valueError "linkage: need at least 2 observations") :=
  clustering_failure_aborts fsAll respOk tOne
    (PyErr.valueError "linkage: need at least 2 observations")
    (some "correlation_matrix.png") none (some "dbscan_clusters.png")
    (by decide) (by decide) (by decide) (by decide)

/-- C4 (counterexample): on the one-row numeric table the hierarchical
stage fails numerically and the whole pipeline returns that error: the
corresponding artifact is not merely omitted, the rest of the pipeline
(narrative, report) never runs, contrary to the claimed partial-failure
handling. -/
theorem clustering_failure_cex :
    hierarchical_clustering fsAll tOne =
      Except.error (PyErr.valueError "linkage: need at least 2 observations") ∧
    analyze_and_generate_output fsAll respOk tOne =
      Except.error (PyErr.valueError "linkage: need at least 2 observations") :=
  ⟨by decide, by decide⟩

/-- C8 (amended): a rendering failure of one visualization artifact is an
uncaught exception: it aborts analyze_and_generate_output entirely, so no
artifact set is returned at all and the artifacts after the failing one
are never rendered. -/
theorem render_failure_aborts (fs : String → Bool) (resp : Except ReqError NarrativeJson)
    (d : Table) (e : PyErr)
    (hcm : generate_correlation_matrix fs d = Except.error e) :
    analyze_and_generate_output fs resp d = Except.error e := by
  simp only [analyze_and_generate_output, render_all]
  rw [hcm]
  rfl

/-- C8 (amended, witness): with only the correlation-matrix write failing,
the run aborts with that rendering error. -/
theorem render_failure_aborts_witness :
    analyze_and_generate_output fsNoCorr respOk tOne =
      Except.error (PyErr.renderError "correlation_matrix.png") :=
  render_failure_aborts fsNoCorr respOk tOne
    (PyErr.renderError "correlation_matrix.png") (by decide)

/-- C8 (counterexample): when the correlation-matrix write fails on a
table on which the PCA artifact would render fine, the pipeline aborts
with the rendering error: the failure does not merely drop one artifact
while the others proceed. -/
theorem render_failure_cex :
    analyze_and_generate_output fsNoCorr respOk tTwoCols =
      Except.error (PyErr.renderError "correlation_matrix.png") ∧
    generate_pca_plot fsNoCorr tTwoCols = Except.ok (some "pca_plot.png") :=
  ⟨by decide, by decide⟩

/-- C9: density-based clustering is deterministic: two runs on identical
input tables (hence the same row order, with the fixed parameters eps=0.5
and min_samples=5 baked into dbscan_fit_predict) produce identical per-row
label assignments, and identical stage outcomes. -/
theorem dbscan_deterministic (d1 d2 : Table) (fs : String → Bool) (h : d1 = d2) :
    dbscan_fit_predict (numericDropna d1) = dbscan_fit_predict (numericDropna d2) ∧
    dbscan_clustering fs d1 = dbscan_clustering fs d2 := by
  subst h
  exact ⟨rfl, rfl⟩

/-- C9 (witness): two runs on the same concrete table agree. -/
theorem dbscan_deterministic_witness :
    dbscan_fit_predict (numericDropna tTwoCols) = dbscan_fit_predict (numericDropna tTwoCols) ∧
    dbscan_clustering fsAll tTwoCols = dbscan_clustering fsAll tTwoCols :=
  dbscan_deterministic tTwoCols tTwoCols fsAll rfl

/-- C10: attaching the cluster-label column does not mutate the shared
table: the table object the orchestrator keeps passing to later stages is
the original (select_dtypes and dropna build a new frame and the labels
are attached to that derived copy, which carries the extra cluster
column), so hierarchical clustering computes on the unchanged table. -/
theorem dbscan_no_mutation (fs : String → Bool) (d : Table)
    (hne : dfEmpty (numericDropna d) = false) :
    (dbscan_clustering fs d).dataAfter = d ∧
    (dbscan_clustering fs d).derived =
      numericDropna d ++
        [⟨"cluster", true, (dbscan_fit_predict (numericDropna d)).map (fun z => some ((z : ℚ)))⟩] ∧
    hierarchical_clustering fs ((dbscan_clustering fs d).dataAfter) =
      hierarchical_clustering fs d := by
  refine ⟨dbscan_dataAfter fs d, ?_, by rw [dbscan_dataAfter]⟩
  simp [dbscan_clustering, hne]

/-- C10 (witness): on the concrete one-column table the shared table is
unchanged and the labels live on the derived copy. -/
theorem dbscan_no_mutation_witness :
    (dbscan_clustering fsAll tOne).dataAfter = tOne ∧
    (dbscan_clustering fsAll tOne).derived =
      numericDropna tOne ++
        [⟨"cluster", true, (dbscan_fit_predict (numericDropna tOne)).map (fun z => some ((z : ℚ)))⟩] ∧
    hierarchical_clustering fsAll ((dbscan_clustering fsAll tOne).dataAfter) =
      hierarchical_clustering fsAll tOne :=
  dbscan_no_mutation fsAll tOne (by decide)

lemma sortQ_perm (vs : List ℚ) : (sortQ vs).Perm vs :=
  List.mergeSort_perm vs _

lemma sortQ_length (vs : List ℚ) : (sortQ vs).length = vs.length :=
  (sortQ_perm vs).length_eq

lemma getD_all_eq (l : List ℚ) (q : ℚ) (hall : ∀ x ∈ l, x = q) (i : Nat)
    (hi : i < l.length) : l.getD i 0 = q := by
  rw [List.getD_eq_getElem l 0 hi]
  exact hall _ (List.getElem_mem hi)

/-- The linear-interpolation quantile of a nonempty constant list is the
constant, for any quantile level in [0, 1]. -/
lemma quantile_const (p : ℚ) (_hp0 : 0 ≤ p) (hp1 : p ≤ 1) (vs : List ℚ) (q : ℚ)
    (hne : vs ≠ []) (hall : ∀ x ∈ vs, x = q) : quantileQ p vs = some q := by
  have hlen : (sortQ vs).length = vs.length := sortQ_length vs
  have hpos : 0 < (sortQ vs).length := by
    rw [hlen]
    exact List.length_pos.mpr hne
  have hallS : ∀ x ∈ sortQ vs, x = q := fun x hx => hall x ((sortQ_perm vs).mem_iff.mp hx)
  have hone : (1 : ℚ) ≤ ((sortQ vs).length : ℚ) := by exact_mod_cast hpos
  have hposle : qpos p (sortQ vs) ≤ ((sortQ vs).length : ℚ) - 1 := by
    unfold qpos
    nlinarith
  have hcast : (((sortQ vs).length : ℚ)) - 1 = ((((sortQ vs).length : ℤ) - 1 : ℤ) : ℚ) := by
    push_cast
    ring
  have hfloor : (⌊qpos p (sortQ vs)⌋).toNat < (sortQ vs).length := by
    have h2 : ⌊qpos p (sortQ vs)⌋ ≤ ⌊((sortQ vs).length : ℚ) - 1⌋ := Int.floor_le_floor hposle
    rw [hcast, Int.floor_intCast] at h2
    omega
  have hceil : (⌈qpos p (sortQ vs)⌉).toNat < (sortQ vs).length := by
    have h2 : ⌈qpos p (sortQ vs)⌉ ≤ ⌈((sortQ vs).length : ℚ) - 1⌉ := Int.ceil_le_ceil hposle
    rw [hcast, Int.ceil_intCast] at h2
    omega
  have hsne : ¬ ((sortQ vs).isEmpty = true) := by
    rw [List.isEmpty_iff]
    intro h
    rw [h] at hpos
    exact absurd hpos (by simp)
  unfold quantileQ interpAt
  rw [if_neg hsne, getD_all_eq _ q hallS _ hfloor, getD_all_eq _ q hallS _ hceil]
  have : q + (qpos p (sortQ vs) - (⌊qpos p (sortQ vs)⌋ : ℚ)) * (q - q) = q := by ring
  rw [this]

/-- With both quartiles equal to q (IQR = 0), the fence degenerates to the
point q and the outlier count is exactly the number of values different
from q. -/
lemma outlierCount_iqr_zero (c : Column) (q : ℚ)
    (h1 : quantileQ (1/4) (colVals c) = some q)
    (h3 : quantileQ (3/4) (colVals c) = some q) :
    outlierCount c.cells = (colVals c).countP (fun x => decide (x ≠ q)) := by
  simp only [outlierCount]
  simp only [colVals] at h1 h3 ⊢
  rw [h1, h3]
  have hfun : ∀ x : ℚ,
      (decide (x < q - 3/2 * (q - q)) || decide (q + 3/2 * (q - q) < x))
        = decide (x ≠ q) := by
    intro x
    have e1 : q - 3/2 * (q - q) = q := by ring
    have e2 : q + 3/2 * (q - q) = q := by ring
    rw [e1, e2, ← Bool.decide_or, decide_eq_decide]
    exact lt_or_lt_iff_ne
  exact List.countP_congr (fun x _ => by rw [hfun x])

/-- C5: in the outlier report, whenever a numeric column has IQR = 0
(both quartiles equal to some q), a value is counted as an outlier exactly
when it differs from q (the fence is boundary-inclusive and degenerates to
q); in particular a column whose present values are all equal contributes
a count of 0. -/
theorem outlier_iqr_zero_policy (d : Table) (c : Column) (q : ℚ)
    (hc : c ∈ d) (hn : c.isNum = true) :
    (quantileQ (1/4) (colVals c) = some q → quantileQ (3/4) (colVals c) = some q →
      (c.name, (colVals c).countP (fun x => decide (x ≠ q))) ∈ outlier_detection d) ∧
    (colVals c ≠ [] → (∀ x ∈ colVals c, x = q) → (c.name, 0) ∈ outlier_detection d) := by
  have hmem : c ∈ select_dtypes_number d := List.mem_filter.mpr ⟨hc, hn⟩
  have main : ∀ q1 : ℚ, quantileQ (1/4) (colVals c) = some q1 →
      quantileQ (3/4) (colVals c) = some q1 →
      (c.name, (colVals c).countP (fun x => decide (x ≠ q1))) ∈ outlier_detection d := by
    intro q1 h1 h3
    have hmm : (c.name, outlierCount c.cells) ∈
        (select_dtypes_number d).map (fun c : Column => (c.name, outlierCount c.cells)) :=
      List.mem_map_of_mem _ hmem
    rw [outlierCount_iqr_zero c q1 h1 h3] at hmm
    exact hmm
  refine ⟨main q, ?_⟩
  intro hne hall
  have h1 := quantile_const (1/4) (by norm_num) (by norm_num) (colVals c) q hne hall
  have h3 := quantile_const (3/4) (by norm_num) (by norm_num) (colVals c) q hne hall
  have hz : (colVals c).countP (fun x => decide (x ≠ q)) = 0 := by
    rw [List.countP_eq_zero]
    intro x hx
    simp [hall x hx]
  have := main q h1 h3
  rw [hz] at this
  exact this

/-- C5 (witness): the constant column of tOne has both quartiles 0 and
contributes an outlier count of 0. -/
theorem outlier_iqr_zero_policy_witness :
    (quantileQ (1/4) (colVals colA) = some 0 → quantileQ (3/4) (colVals colA) = some 0 →
      ("a", (colVals colA).countP (fun x => decide (x ≠ 0))) ∈ outlier_detection tOne) ∧
    (colVals colA ≠ [] → (∀ x ∈ colVals colA, x = 0) → ("a", 0) ∈ outlier_detection tOne) :=
  outlier_iqr_zero_policy tOne colA 0 (by decide) rfl

lemma outlierCount_le (cells : List (Option ℚ)) : outlierCount cells ≤ cells.length := by
  simp only [outlierCount]
  cases h1 : quantileQ (1/4) (cells.filterMap id) with
  | none => simp
  | some q1 =>
    cases h3 : quantileQ (3/4) (cells.filterMap id) with
    | none => simp
    | some q3 =>
      exact le_trans (List.countP_le_length _) (List.length_filterMap_le id cells)

/-- C6: for every table (with at least one numeric column, and with the
pandas invariant that all columns share the row count n), every per-column
count in the outlier report is at least 0 and at most n. -/
theorem outlier_counts_bounded (d : Table) (n : Nat)
    (hlen : ∀ c ∈ d, c.cells.length = n)
    (_hnum : 1 ≤ ncolsDf (select_dtypes_number d)) :
    ∀ pr ∈ outlier_detection d, pr.2 ≤ n ∧ 0 ≤ pr.2 := by
  intro pr hpr
  unfold outlier_detection at hpr
  rcases List.mem_map.mp hpr with ⟨c, hcmem, rfl⟩
  have hcd : c ∈ d := (List.mem_filter.mp hcmem).1
  refine ⟨?_, Nat.zero_le _⟩
  calc outlierCount c.cells ≤ c.cells.length := outlierCount_le _
    _ = n := hlen c hcd

/-- C6 (witness): on the concrete one-column one-row table, the entry of
its outlier report has its count between 0 and the row count 1. -/
theorem outlier_counts_bounded_witness :
    (("a", outlierCount colA.cells) : String × Nat).2 ≤ 1 ∧
    0 ≤ (("a", outlierCount colA.cells) : String × Nat).2 :=
  outlier_counts_bounded tOne 1 (by decide) (by decide) ("a", outlierCount colA.cells)
    (List.mem_singleton.mpr rfl)

/-- C7: when the narrative HTTP call fails (transport error, or the
HTTPError that raise_for_status raises on an error status) on a run whose
visualization stages and README write succeed, the report file is still
written, its content is the fixed placeholder narrative under the fixed
heading, and the process exit status is 0. -/
theorem narrative_failure_report_written (fs : String → Bool) (d : Table) (e : ReqError)
    (ps : List (String × Option String)) (dA : Table)
    (hrender : render_all fs d = Except.ok (ps, dA))
    (hreadme : fs "README.md" = true) :
    analyze_and_generate_output fs (Except.error e) d =
      Except.ok
        { narrative := "Error: Unable to generate narrative. Please check the AI service.",
          readme := "Dataset Analysis: Error: Unable to generate narrative. Please check the AI service.",
          image_paths := ps } ∧
    mainExitCode fs (Except.error e) d = 0 := by
  have h : analyze_and_generate_output fs (Except.error e) d =
      Except.ok
        { narrative := "Error: Unable to generate narrative. Please check the AI service.",
          readme := "Dataset Analysis: Error: Unable to generate narrative. Please check the AI service.",
          image_paths := ps } := by
    simp only [analyze_and_generate_output, save_readme]
    rw [hrender, hreadme]
    rfl
  refine ⟨h, ?_⟩
  unfold mainExitCode
  rw [h]

/-- C7 (witness): a degraded run on the concrete table tW with an HTTP
500 failure still writes the placeholder report and exits 0. -/
theorem narrative_failure_report_written_witness :
    analyze_and_generate_output fsAll (Except.error (ReqError.httpStatus 500)) tW =
      Except.ok
        { narrative := "Error: Unable to generate narrative. Please check the AI service.",
          readme := "Dataset Analysis: Error: Unable to generate narrative. Please check the AI service.",
          image_paths := [("correlation_matrix", some "correlation_matrix.png"), ("pca_plot", none),
            ("dbscan_clusters", some "dbscan_clusters.png"),
            ("hierarchical_clustering", some "hierarchical_clustering.png")] } ∧
    mainExitCode fsAll (Except.error (ReqError.httpStatus 500)) tW = 0 :=
  narrative_failure_report_written fsAll tW (ReqError.httpStatus 500)
    [("correlation_matrix", some "correlation_matrix.png"), ("pca_plot", none),
     ("dbscan_clusters", some "dbscan_clusters.png"),
     ("hierarchical_clustering", some "hierarchical_clustering.png")] tW (by decide) rfl

/-- Bridge between the rational DBSCAN neighborhood test and the real
standardized coordinates: the squared difference of two standardized
values, ((x - m)/s - (y - m)/s)^2 = ((x - y)/s)^2 with s the sqrt of the
variance (1 on zero variance), is (x - y)^2 / variance, the rational
quantity scaledSqDist sums per feature. -/
lemma scaled_term_sq (v x y : ℝ) (hv : 0 ≤ v) :
    ((x - y) / (if v = 0 then 1 else Real.sqrt v)) ^ 2
      = (x - y) ^ 2 / (if v = 0 then 1 else v) := by
  by_cases h : v = 0
  · simp [h]
  · rw [if_neg h, if_neg h, div_pow, Real.sq_sqrt hv]

lemma colValsR_pair : colValsR ⟨"a", true, [some 0, some 4]⟩ = [(0 : ℝ), 4] := by
  simp [colValsR, colVals]

lemma meanR_pair : meanR [(0 : ℝ), 4] = 2 := by
  simp [meanR]
  norm_num

lemma popVarR_pair : popVarR [(0 : ℝ), 4] = 4 := by
  simp [popVarR, meanR_pair]
  norm_num

lemma scaleR_pair : scaleR [(0 : ℝ), 4] = 2 := by
  unfold scaleR
  rw [popVarR_pair, if_neg (by norm_num : (4 : ℝ) ≠ 0)]
  rw [show (4 : ℝ) = 2 ^ 2 by norm_num]
  exact Real.sqrt_sq (by norm_num)

lemma stdColumn_pair : stdColumn [(0 : ℝ), 4] = [-1, 1] := by
  simp [stdColumn, meanR_pair, scaleR_pair]
  norm_num

/-- C2 (amended): the two clustering algorithms consume the same numeric,
missing-value-free subset of the table, but only the density-based one
standardizes it: the matrix DBSCAN is fitted on is exactly the column-wise
StandardScaler transform of the matrix ward linkage is fitted on, and the
latter keeps the raw values. -/
theorem clustering_inputs_related (d : Table) :
    hierarchical_input d = (numericDropna d).map colValsR ∧
    dbscan_input d = (hierarchical_input d).map stdColumn := by
  refine ⟨rfl, ?_⟩
  simp [dbscan_input, hierarchical_input, standardScalerCols, List.map_map, Function.comp]

/-- C2 (counterexample): on a one-column table with values 0 and 4
(variance 4), DBSCAN is fitted on the standardized values [-1, 1] while
ward linkage is fitted on the raw values [0, 4]; the two algorithms do not
operate on the same (standardized) input. -/
theorem clustering_inputs_cex :
    dbscan_input tPair ≠ hierarchical_input tPair := by
  have h0 : numericDropna tPair = tPair := rfl
  have hh : hierarchical_input tPair = [[(0 : ℝ), 4]] := by
    show (numericDropna tPair).map colValsR = _
    rw [h0]
    simp [tPair, colValsR_pair]
  have hd : dbscan_input tPair = [[(-1 : ℝ), 1]] := by
    show standardScalerCols (numericDropna tPair) = _
    rw [h0]
    simp [tPair, standardScalerCols, colValsR_pair, stdColumn_pair]
  rw [hd, hh]
  intro h
  simp at h

end Autolysis
